import Mathlib

/-!
# srs_service_log.cpp: thread context store, scoped restore, log header and console log

A shallow embedding of `trunk/src/protocol/srs_service_log.cpp`.

* C++ objects with mutable members become structures that are passed in and returned.
* A returned `const SrsContextId&` becomes a `CidRef`: the place the reference denotes.
  What a caller sees through it is obtained with `CidRef.deref` in the state after the call.
* `srs_thread_self()` is the argument `self` of every member of `SrsThreadContext`.
* The class `SrsContextId` is declared in a header that is not part of the translated
  file; its operations are taken as the parameter `SrsContextIdOps`.
-/

namespace Srs

/-! ## SrsContextId (declared elsewhere) and the thread handle -/

/-- The thread handle `srs_thread_t` returned by `srs_thread_self()`. -/
abbrev srs_thread_t := Nat

/-- The members of `SrsContextId` that srs_service_log.cpp calls. The class itself is
declared outside the translated file, so each member is a parameter.
`with_parent c p` and `bind c t` are the value held by the object `c` after the calls
`c.with(p)` and `c.bind(t)`. -/
structure SrsContextIdOps (Cid : Type) where
  /-- The default constructor `SrsContextId()`, whose value `std::map::operator[]` inserts. -/
  dflt : Cid
  /-- The constructor `SrsContextId(v)`. -/
  ofValue : String → Cid
  /-- The constructor `SrsContextId(k, v)`. -/
  ofKeyValue : String → String → Cid
  /-- The call `cid.with(parent)`. -/
  with_parent : Cid → Cid → Cid
  /-- The call `cid.bind(target)`. -/
  bind : Cid → Cid → Cid
  /-- The call `cid.c_str()`. -/
  c_str : Cid → String

/-! ## std::map<srs_thread_t, SrsContextId> -/

/-- The member `cache`: a finite map from thread handles to context ids. -/
abbrev Cache (Cid : Type) := srs_thread_t → Option Cid

/-- The map after evaluating `m[k]`: `operator[]` inserts a default-constructed
value when `k` has no element. -/
def Cache.subscript {Cid : Type} (d : Cid) (m : Cache Cid) (k : srs_thread_t) : Cache Cid :=
  fun t => if t = k then (match m k with | some c => some c | none => some d) else m t

/-- The map after `m[k] = v`. -/
def Cache.assign {Cid : Type} (d : Cid) (m : Cache Cid) (k : srs_thread_t) (v : Cid) :
    Cache Cid :=
  fun t => if t = k then some v else Cache.subscript d m k t

/-- The map after `m.erase(m.find(k))` for a present key. -/
def Cache.erase {Cid : Type} (m : Cache Cid) (k : srs_thread_t) : Cache Cid :=
  fun t => if t = k then none else m t

/-! ## SrsThreadContext -/

/-- The object `SrsThreadContext`: its only data member is `cache`. -/
structure SrsThreadContext (Cid : Type) where
  cache : Cache Cid

/-- What a returned `const SrsContextId&` denotes: the caller's argument object, or the
element of `cache` stored under a thread handle. -/
inductive CidRef where
  | arg : CidRef
  | slot (t : srs_thread_t) : CidRef
deriving DecidableEq, Repr

/-- Reading through a reference, given the argument object `v` and the store. An
element that does not exist cannot be read. -/
def CidRef.deref {Cid : Type} (v : Cid) (ctx : SrsThreadContext Cid) : CidRef → Option Cid
  | CidRef.arg => some v
  | CidRef.slot t => ctx.cache t

/-- The member `SrsThreadContext::get_id()`: `return cache[srs_thread_self()];`. -/
def SrsThreadContext.get_id {Cid : Type} (ops : SrsContextIdOps Cid)
    (ctx : SrsThreadContext Cid) (self : srs_thread_t) : CidRef × SrsThreadContext Cid :=
  (CidRef.slot self, { cache := Cache.subscript ops.dflt ctx.cache self })

/-- The member `SrsThreadContext::set_id(v)`. -/
def SrsThreadContext.set_id {Cid : Type} (ops : SrsContextIdOps Cid)
    (ctx : SrsThreadContext Cid) (self : srs_thread_t) (v : Cid) :
    CidRef × SrsThreadContext Cid :=
  -- if (cache.find(self) == cache.end()) { cache[self] = v; return v; }
  if (ctx.cache self).isNone then
    (CidRef.arg, { cache := Cache.assign ops.dflt ctx.cache self v })
  else
    -- const SrsContextId& ov = cache[self];
    let ov := CidRef.slot self
    let cache1 := Cache.subscript ops.dflt ctx.cache self
    -- cache[self] = v;
    let cache2 := Cache.assign ops.dflt cache1 self v
    -- return ov;
    (ov, { cache := cache2 })

/-- The member `SrsThreadContext::clear_cid()`. -/
def SrsThreadContext.clear_cid {Cid : Type} (ctx : SrsThreadContext Cid)
    (self : srs_thread_t) : SrsThreadContext Cid :=
  -- it = cache.find(self); if (it != cache.end()) cache.erase(it);
  if (ctx.cache self).isSome then { cache := Cache.erase ctx.cache self } else ctx

/-- The value a caller obtains from `get_id()` on thread `self`. -/
def SrsThreadContext.get_id_value {Cid : Type} (ops : SrsContextIdOps Cid)
    (ctx : SrsThreadContext Cid) (self : srs_thread_t) : Option Cid :=
  let r := ctx.get_id ops self
  r.1.deref ops.dflt r.2

/-- The value a caller obtains from `set_id(v)` on thread `self`: the returned
reference read right after the call returns. -/
def SrsThreadContext.set_id_value {Cid : Type} (ops : SrsContextIdOps Cid)
    (ctx : SrsThreadContext Cid) (self : srs_thread_t) (v : Cid) : Option Cid :=
  let r := ctx.set_id ops self v
  r.1.deref v r.2

/-- One call on the store made by some code running on a thread. -/
inductive StoreCall (Cid : Type) where
  | get_id : StoreCall Cid
  | set_id (v : Cid) : StoreCall Cid
  | clear_cid : StoreCall Cid

/-- The store after one call made on thread `self`. -/
def StoreCall.run {Cid : Type} (ops : SrsContextIdOps Cid) (self : srs_thread_t)
    (ctx : SrsThreadContext Cid) : StoreCall Cid → SrsThreadContext Cid
  | StoreCall.get_id => (ctx.get_id ops self).2
  | StoreCall.set_id v => (ctx.set_id ops self v).2
  | StoreCall.clear_cid => ctx.clear_cid self

/-- The store after a sequence of calls made on thread `self`, in order. -/
def runCalls {Cid : Type} (ops : SrsContextIdOps Cid) (self : srs_thread_t)
    (ctx : SrsThreadContext Cid) (calls : List (StoreCall Cid)) : SrsThreadContext Cid :=
  calls.foldl (StoreCall.run ops self) ctx

/-! ## impl_SrsContextRestore -/

/-- The guard object: its only data member is `cid_`. -/
structure impl_SrsContextRestore (Cid : Type) where
  cid_ : Cid

/-- The constructor `impl_SrsContextRestore(SrsContextId cid)`: `cid_ = cid;`. -/
def impl_SrsContextRestore.ctor {Cid : Type} (cid : Cid) : impl_SrsContextRestore Cid :=
  { cid_ := cid }

/-- The destructor: `_srs_context->set_id(cid_);` run on thread `self`, where
`_srs_context` is the store `ctx`. -/
def impl_SrsContextRestore.dtor {Cid : Type} (ops : SrsContextIdOps Cid)
    (g : impl_SrsContextRestore Cid) (ctx : SrsThreadContext Cid) (self : srs_thread_t) :
    SrsThreadContext Cid :=
  (ctx.set_id ops self g.cid_).2

/-! ## The C library: formatted output into a character array

A C `char` is a Lean `Char`; a C string is a `String` (its characters before the
terminating NUL), and `strlen` is `String.length`. A character array is a `List Char`
holding all of its elements. -/

/-- The terminating NUL character. -/
def NUL : Char := Char.ofNat 0

/-- The constant `INT_MAX` of the 32-bit `int`. -/
def INT_MAX : Int := 2147483647

/-- The value of `x` as a 32-bit `int`: the conversion `(int)x`, and the result of an
`int` addition whose exact sum is `x`. -/
def to_int (x : Int) : Int := (x + 2 ^ 31) % 2 ^ 32 - 2 ^ 31

/-- An `int` argument converted to the 64-bit `size_t` of a parameter. -/
def to_size_t (n : Int) : Nat := (n % 2 ^ 64).toNat

/-- One variadic argument of a printf-family call. -/
inductive Arg where
  | int (i : Int) : Arg
  | str (s : String) : Arg

/-- A conversion specification being read: the flag 0, the field width, and the
precision once a period was read. -/
structure Directive where
  zero : Bool := false
  width : Nat := 0
  prec : Option Int := none

/-- The value of a decimal digit character. -/
def digitVal (c : Char) : Nat := c.toNat - 48

/-- A run of `n` copies of the character `c`. -/
def fill (c : Char) (n : Nat) : String := String.mk (List.replicate n c)

/-- The conversion `d`: sign, then zeros up to the field width when the flag 0 is
given, otherwise spaces before the sign. -/
def conv_d (d : Directive) (i : Int) : String :=
  let digits := Nat.repr i.natAbs
  let sign := if i < 0 then "-" else ""
  let n := d.width - (sign.length + digits.length)
  if d.zero then sign ++ fill '0' n ++ digits else fill ' ' n ++ sign ++ digits

/-- The conversion `u` applied to an `int` argument: the value read as `unsigned int`. -/
def conv_u (d : Directive) (i : Int) : String :=
  let digits := Nat.repr (i % 2 ^ 32).toNat
  let n := d.width - digits.length
  if d.zero then fill '0' n ++ digits else fill ' ' n ++ digits

/-- The conversion `s`: the whole string, or at most `precision` characters of it; a
negative precision counts as no precision. -/
def conv_s (d : Directive) (s : String) : String :=
  match d.prec with
  | none => s
  | some p => if p < 0 then s else String.mk (s.data.take p.toNat)

/-- The expansion of a format, for the conversions used in srs_service_log.cpp:
`%d`, `%02d`, `%03d`, `%u`, `%s` and `%.*s`. The first argument is the conversion
specification being read, if any. A conversion without a matching argument, or one that
is not listed, stops the expansion. -/
def vformat : Option Directive → List Char → List Arg → String
  | _, [], _ => ""
  | none, c :: cs, args =>
    if c = '%' then vformat (some {}) cs args
    else String.singleton c ++ vformat none cs args
  | some d, c :: cs, args =>
    if c = '.' then vformat (some { d with prec := some 0 }) cs args
    else if c = '*' then
      match args with
      | Arg.int p :: rest => vformat (some { d with prec := some p }) cs rest
      | _ => ""
    else if c = '0' ∧ d.width = 0 ∧ d.prec = none then
      vformat (some { d with zero := true }) cs args
    else if c.isDigit then
      match d.prec with
      | none => vformat (some { d with width := 10 * d.width + digitVal c }) cs args
      | some p => vformat (some { d with prec := some (10 * p + digitVal c) }) cs args
    else if c = 'd' then
      match args with
      | Arg.int i :: rest => conv_d d i ++ vformat none cs rest
      | _ => ""
    else if c = 'u' then
      match args with
      | Arg.int i :: rest => conv_u d i ++ vformat none cs rest
      | _ => ""
    else if c = 's' then
      match args with
      | Arg.str s :: rest => conv_s d s ++ vformat none cs rest
      | _ => ""
    else ""

/-- The full expansion of `fmt` with `args`, as `printf` would print it. -/
def format (fmt : String) (args : List Arg) : String := vformat none fmt.data args

/-- The C string stored at the start of a character array: the characters before the
first NUL. Reading an array that holds no NUL runs past its end, which is undefined. -/
def c_string (mem : List Char) : Option String :=
  if NUL ∈ mem then some (String.mk (mem.takeWhile (fun c => c != NUL))) else none

/-- The characters `snprintf` stores for the expansion `s` when the capacity argument is
`n`: nothing for `n = 0`, otherwise at most `n - 1` characters and the NUL. -/
def snprintf_stored (n : Nat) (s : String) : List Char :=
  if n = 0 then [] else s.data.take (n - 1) ++ [NUL]

/-- The value `snprintf` returns for the expansion `s`: its full length, or a negative
value when that length does not fit an `int`. -/
def snprintf_return (s : String) : Int :=
  if (s.length : Int) ≤ INT_MAX then (s.length : Int) else -1

/-- The call `snprintf(mem + off, n, ...)` (also `vsnprintf`) whose format expands to `s`:
the array afterwards and the returned value. `n` is the `int` the caller passes, converted
to `size_t`. The result is `none` when `mem + off` is not inside the array or a character
would be stored outside it (undefined behaviour). -/
def snprintf (mem : List Char) (off : Int) (n : Int) (s : String) :
    Option (List Char × Int) :=
  let stored := snprintf_stored (to_size_t n) s
  if 0 ≤ off ∧ off.toNat + stored.length ≤ mem.length then
    some (mem.take off.toNat ++ stored ++ mem.drop (off.toNat + stored.length),
      snprintf_return s)
  else none

/-! ## The environment: clock, calendar, process and errno -/

/-- The fields of `struct timeval` that are read. -/
structure struct_timeval where
  tv_sec : Int
  tv_usec : Int

/-- The fields of `struct tm` that are read. -/
structure struct_tm where
  tm_year : Int
  tm_mon : Int
  tm_mday : Int
  tm_hour : Int
  tm_min : Int
  tm_sec : Int

/-- The results of the system and library calls made while one log call runs. -/
structure Sys where
  /-- The time stored by `gettimeofday(&tv, NULL)`, or `none` when it returns -1. -/
  gettimeofday : Option struct_timeval
  /-- The result of `gmtime`, or `none` for `NULL`. -/
  gmtime : Int → Option struct_tm
  /-- The result of `localtime`, or `none` for `NULL`. -/
  localtime : Int → Option struct_tm
  /-- The result of `getpid()`. -/
  getpid : Int
  /-- The result of `strerror`. -/
  strerror : Int → String

/-- The process state a log call reads and writes: `errno` and what has been written to
the two standard streams. -/
structure Proc where
  errno : Int
  stdout : String
  stderr : String

/-! ## srs_log_header -/

/-- The expansion of the format chosen by `srs_log_header` (the four `snprintf` calls),
for the clock time `tv` and the calendar time `tm`. `tag = none` is a null `tag`. The
sums `1900 + tm_year` and `1 + tm_mon` are sums of two `int`: a sum outside the range of
`int` wraps around, as the two's complement addition of the target does. -/
def srs_log_header_text {Cid : Type} (sys : Sys) (ops : SrsContextIdOps Cid) (errno : Int)
    (tv : struct_timeval) (tm : struct_tm) (dangerous : Bool) (tag : Option String)
    (cid : Cid) (level : String) : String :=
  if dangerous then
    match tag with
    | some tag =>
      format "[%d-%02d-%02d %02d:%02d:%02d.%03d][%s][%s][%d][%s][%d] "
        [Arg.int (to_int (1900 + tm.tm_year)), Arg.int (to_int (1 + tm.tm_mon)),
         Arg.int tm.tm_mday,
         Arg.int tm.tm_hour, Arg.int tm.tm_min, Arg.int tm.tm_sec,
         Arg.int (to_int (Int.tdiv tv.tv_usec 1000)),
         Arg.str level, Arg.str tag, Arg.int sys.getpid, Arg.str (ops.c_str cid),
         Arg.int errno]
    | none =>
      format "[%d-%02d-%02d %02d:%02d:%02d.%03d][%s][%d][%s][%d] "
        [Arg.int (to_int (1900 + tm.tm_year)), Arg.int (to_int (1 + tm.tm_mon)),
         Arg.int tm.tm_mday,
         Arg.int tm.tm_hour, Arg.int tm.tm_min, Arg.int tm.tm_sec,
         Arg.int (to_int (Int.tdiv tv.tv_usec 1000)),
         Arg.str level, Arg.int sys.getpid, Arg.str (ops.c_str cid), Arg.int errno]
  else
    match tag with
    | some tag =>
      format "[%d-%02d-%02d %02d:%02d:%02d.%03d][%s][%s][%d][%s] "
        [Arg.int (to_int (1900 + tm.tm_year)), Arg.int (to_int (1 + tm.tm_mon)),
         Arg.int tm.tm_mday,
         Arg.int tm.tm_hour, Arg.int tm.tm_min, Arg.int tm.tm_sec,
         Arg.int (to_int (Int.tdiv tv.tv_usec 1000)),
         Arg.str level, Arg.str tag, Arg.int sys.getpid, Arg.str (ops.c_str cid)]
    | none =>
      format "[%d-%02d-%02d %02d:%02d:%02d.%03d][%s][%d][%s] "
        [Arg.int (to_int (1900 + tm.tm_year)), Arg.int (to_int (1 + tm.tm_mon)),
         Arg.int tm.tm_mday,
         Arg.int tm.tm_hour, Arg.int tm.tm_min, Arg.int tm.tm_sec,
         Arg.int (to_int (Int.tdiv tv.tv_usec 1000)),
         Arg.str level, Arg.int sys.getpid, Arg.str (ops.c_str cid)]

/-- The calendar conversion `srs_log_header` performs: `gmtime` when `utc`, otherwise
`localtime`. -/
def to_calendar (sys : Sys) (utc : Bool) (tv : struct_timeval) : Option struct_tm :=
  if utc then sys.gmtime tv.tv_sec else sys.localtime tv.tv_sec

/-- The function `srs_log_header(buffer, size, utc, dangerous, tag, cid, level, psize)`.
`psize` is the value of `*psize` before the call. The result is the returned `bool`, the
array `buffer` points to and the value of `*psize` after the call, or `none` when the
`snprintf` stores outside the array. -/
def srs_log_header {Cid : Type} (sys : Sys) (ops : SrsContextIdOps Cid) (errno : Int)
    (buffer : List Char) (size : Int) (utc dangerous : Bool) (tag : Option String)
    (cid : Cid) (level : String) (psize : Int) : Option (Bool × List Char × Int) :=
  -- if (gettimeofday(&tv, NULL) == -1) return false;
  match sys.gettimeofday with
  | none => some (false, buffer, psize)
  | some tv =>
    -- if ((tm = gmtime(&tv.tv_sec)) == NULL) return false;  (or localtime)
    match to_calendar sys utc tv with
    | none => some (false, buffer, psize)
    | some tm =>
      -- written = snprintf(buffer, size, ...);
      match snprintf buffer 0 size
          (srs_log_header_text sys ops errno tv tm dangerous tag cid level) with
      | none => none
      | some (buffer, written) =>
        -- if (written >= size) return false;
        if written ≥ size then some (false, buffer, psize)
        -- if (written == -1) return false;
        else if written = -1 then some (false, buffer, psize)
        -- *psize = written; return true;
        else some (true, buffer, written)

/-! ## SrsConsoleLog -/

/-- The constant `SRS_BASIC_LOG_SIZE`. -/
def SRS_BASIC_LOG_SIZE : Int := 8192

/-- The enumerators of `SrsLogLevel` that the file compares with; the enumeration is
declared outside the translated file, so their values are parameters. -/
structure SrsLogLevel where
  SrsLogLevelVerbose : Int
  SrsLogLevelInfo : Int
  SrsLogLevelTrace : Int
  SrsLogLevelWarn : Int
  SrsLogLevelError : Int

/-- The object `SrsConsoleLog`: `level`, `utc`, and the array `buffer` points to. -/
structure SrsConsoleLog where
  level : Int
  utc : Bool
  buffer : List Char

/-- The constructor `SrsConsoleLog(l, u)`: `buffer = new char[SRS_BASIC_LOG_SIZE]`, an
array of 8192 elements whose initial values `junk` are indeterminate. -/
def SrsConsoleLog.ctor (l : Int) (u : Bool) (junk : Nat → Char) : SrsConsoleLog :=
  { level := l, utc := u, buffer := (List.range SRS_BASIC_LOG_SIZE.toNat).map junk }

/-- The member `SrsConsoleLog::verbose(tag, context_id, fmt, ...)`; `msg` is the expansion
of `fmt` with the variadic arguments. The result is the object and the process state after
the call, or `none` when a character is stored outside `buffer`. -/
def SrsConsoleLog.verbose {Cid : Type} (sys : Sys) (lv : SrsLogLevel)
    (ops : SrsContextIdOps Cid) (self : SrsConsoleLog) (p : Proc) (tag : Option String)
    (context_id : Cid) (msg : String) : Option (SrsConsoleLog × Proc) :=
  -- if (level > SrsLogLevelVerbose) return;
  if self.level > lv.SrsLogLevelVerbose then some (self, p)
  else
    -- int size = 0; if (!srs_log_header(buffer, SRS_BASIC_LOG_SIZE, utc, false, ...)) return;
    match srs_log_header sys ops p.errno self.buffer SRS_BASIC_LOG_SIZE self.utc false tag
        context_id "Verb" 0 with
    | none => none
    | some (false, buffer, _) => some ({ self with buffer := buffer }, p)
    | some (true, buffer, size) =>
      -- size += vsnprintf(buffer + size, SRS_BASIC_LOG_SIZE - size, fmt, ap);
      match snprintf buffer size (SRS_BASIC_LOG_SIZE - size) msg with
      | none => none
      | some (buffer, _) =>
        -- fprintf(stdout, "%s\n", buffer);
        match c_string buffer with
        | none => none
        | some line =>
          some ({ self with buffer := buffer },
            { p with stdout := p.stdout ++ format "%s\n" [Arg.str line] })

/-- The member `SrsConsoleLog::info(tag, context_id, fmt, ...)`; `msg` is the expansion
of `fmt` with the variadic arguments. The result is the object and the process state after
the call, or `none` when a character is stored outside `buffer`. -/
def SrsConsoleLog.info {Cid : Type} (sys : Sys) (lv : SrsLogLevel)
    (ops : SrsContextIdOps Cid) (self : SrsConsoleLog) (p : Proc) (tag : Option String)
    (context_id : Cid) (msg : String) : Option (SrsConsoleLog × Proc) :=
  -- if (level > SrsLogLevelInfo) return;
  if self.level > lv.SrsLogLevelInfo then some (self, p)
  else
    -- int size = 0; if (!srs_log_header(buffer, SRS_BASIC_LOG_SIZE, utc, false, ...)) return;
    match srs_log_header sys ops p.errno self.buffer SRS_BASIC_LOG_SIZE self.utc false tag
        context_id "Debug" 0 with
    | none => none
    | some (false, buffer, _) => some ({ self with buffer := buffer }, p)
    | some (true, buffer, size) =>
      -- size += vsnprintf(buffer + size, SRS_BASIC_LOG_SIZE - size, fmt, ap);
      match snprintf buffer size (SRS_BASIC_LOG_SIZE - size) msg with
      | none => none
      | some (buffer, _) =>
        -- fprintf(stdout, "%s\n", buffer);
        match c_string buffer with
        | none => none
        | some line =>
          some ({ self with buffer := buffer },
            { p with stdout := p.stdout ++ format "%s\n" [Arg.str line] })

/-- The member `SrsConsoleLog::trace(tag, context_id, fmt, ...)`; `msg` is the expansion
of `fmt` with the variadic arguments. The result is the object and the process state after
the call, or `none` when a character is stored outside `buffer`. -/
def SrsConsoleLog.trace {Cid : Type} (sys : Sys) (lv : SrsLogLevel)
    (ops : SrsContextIdOps Cid) (self : SrsConsoleLog) (p : Proc) (tag : Option String)
    (context_id : Cid) (msg : String) : Option (SrsConsoleLog × Proc) :=
  -- if (level > SrsLogLevelTrace) return;
  if self.level > lv.SrsLogLevelTrace then some (self, p)
  else
    -- int size = 0; if (!srs_log_header(buffer, SRS_BASIC_LOG_SIZE, utc, false, ...)) return;
    match srs_log_header sys ops p.errno self.buffer SRS_BASIC_LOG_SIZE self.utc false tag
        context_id "Trace" 0 with
    | none => none
    | some (false, buffer, _) => some ({ self with buffer := buffer }, p)
    | some (true, buffer, size) =>
      -- size += vsnprintf(buffer + size, SRS_BASIC_LOG_SIZE - size, fmt, ap);
      match snprintf buffer size (SRS_BASIC_LOG_SIZE - size) msg with
      | none => none
      | some (buffer, _) =>
        -- fprintf(stdout, "%s\n", buffer);
        match c_string buffer with
        | none => none
        | some line =>
          some ({ self with buffer := buffer },
            { p with stdout := p.stdout ++ format "%s\n" [Arg.str line] })

/-- The member `SrsConsoleLog::warn(tag, context_id, fmt, ...)`; `msg` is the expansion
of `fmt` with the variadic arguments. The result is the object and the process state after
the call, or `none` when a character is stored outside `buffer`. -/
def SrsConsoleLog.warn {Cid : Type} (sys : Sys) (lv : SrsLogLevel)
    (ops : SrsContextIdOps Cid) (self : SrsConsoleLog) (p : Proc) (tag : Option String)
    (context_id : Cid) (msg : String) : Option (SrsConsoleLog × Proc) :=
  -- if (level > SrsLogLevelWarn) return;
  if self.level > lv.SrsLogLevelWarn then some (self, p)
  else
    -- int size = 0; if (!srs_log_header(buffer, SRS_BASIC_LOG_SIZE, utc, true, ...)) return;
    match srs_log_header sys ops p.errno self.buffer SRS_BASIC_LOG_SIZE self.utc true tag
        context_id "Warn" 0 with
    | none => none
    | some (false, buffer, _) => some ({ self with buffer := buffer }, p)
    | some (true, buffer, size) =>
      -- size += vsnprintf(buffer + size, SRS_BASIC_LOG_SIZE - size, fmt, ap);
      match snprintf buffer size (SRS_BASIC_LOG_SIZE - size) msg with
      | none => none
      | some (buffer, _) =>
        -- fprintf(stderr, "%s\n", buffer);
        match c_string buffer with
        | none => none
        | some line =>
          some ({ self with buffer := buffer },
            { p with stderr := p.stderr ++ format "%s\n" [Arg.str line] })

/-- The part of `SrsConsoleLog::error` that builds the header and formats the body (from
`int size = 0;` to `va_end(ap);`). The result is the object at that point, with the local
`size` when the method is still running or `none` when it has returned because the header
failed; the whole result is `none` when a character is stored outside `buffer`. -/
def SrsConsoleLog.error_formatted {Cid : Type} (sys : Sys) (ops : SrsContextIdOps Cid)
    (self : SrsConsoleLog) (p : Proc) (tag : Option String) (context_id : Cid)
    (msg : String) : Option (SrsConsoleLog × Option Int) :=
  -- int size = 0; if (!srs_log_header(buffer, SRS_BASIC_LOG_SIZE, utc, true, ...)) return;
  match srs_log_header sys ops p.errno self.buffer SRS_BASIC_LOG_SIZE self.utc true tag
      context_id "Error" 0 with
  | none => none
  | some (false, buffer, _) => some ({ self with buffer := buffer }, none)
  | some (true, buffer, size) =>
    -- size += vsnprintf(buffer + size, SRS_BASIC_LOG_SIZE - size, fmt, ap);
    match snprintf buffer size (SRS_BASIC_LOG_SIZE - size) msg with
    | none => none
    | some (buffer, n) => some ({ self with buffer := buffer }, some (size + n))

/-- The member `SrsConsoleLog::error(tag, context_id, fmt, ...)`; `msg` is the expansion of
`fmt` with the variadic arguments. The result is the object and the process state after
the call, or `none` when a character is stored outside `buffer`. -/
def SrsConsoleLog.error {Cid : Type} (sys : Sys) (lv : SrsLogLevel)
    (ops : SrsContextIdOps Cid) (self : SrsConsoleLog) (p : Proc) (tag : Option String)
    (context_id : Cid) (msg : String) : Option (SrsConsoleLog × Proc) :=
  -- if (level > SrsLogLevelError) return;
  if self.level > lv.SrsLogLevelError then some (self, p)
  else
    match self.error_formatted sys ops p tag context_id msg with
    | none => none
    | some (log, none) => some (log, p)
    | some (log, some size) =>
      -- if (errno != 0) size += snprintf(buffer + size, SRS_BASIC_LOG_SIZE - size, "(%s)", strerror(errno));
      let described : Option (List Char) :=
        if p.errno ≠ 0 then
          (snprintf log.buffer size (SRS_BASIC_LOG_SIZE - size)
            (format "(%s)" [Arg.str (sys.strerror p.errno)])).map (fun r => r.1)
        else some log.buffer
      match described with
      | none => none
      | some buffer =>
        -- fprintf(stderr, "%s\n", buffer);
        match c_string buffer with
        | none => none
        | some line =>
          some ({ log with buffer := buffer },
            { p with stderr := p.stderr ++ format "%s\n" [Arg.str line] })

/-- The five entry points of `SrsConsoleLog`. -/
inductive EntryPoint where
  | verbose : EntryPoint
  | info : EntryPoint
  | trace : EntryPoint
  | warn : EntryPoint
  | error : EntryPoint
deriving DecidableEq, Repr

/-- The level an entry point compares the configured level with. -/
def EntryPoint.level (lv : SrsLogLevel) : EntryPoint → Int
  | EntryPoint.verbose => lv.SrsLogLevelVerbose
  | EntryPoint.info => lv.SrsLogLevelInfo
  | EntryPoint.trace => lv.SrsLogLevelTrace
  | EntryPoint.warn => lv.SrsLogLevelWarn
  | EntryPoint.error => lv.SrsLogLevelError

/-- A call of the entry point `e`. -/
def SrsConsoleLog.call {Cid : Type} (sys : Sys) (lv : SrsLogLevel)
    (ops : SrsContextIdOps Cid) (self : SrsConsoleLog) (p : Proc) (e : EntryPoint)
    (tag : Option String) (context_id : Cid) (msg : String) :
    Option (SrsConsoleLog × Proc) :=
  match e with
  | EntryPoint.verbose => self.verbose sys lv ops p tag context_id msg
  | EntryPoint.info => self.info sys lv ops p tag context_id msg
  | EntryPoint.trace => self.trace sys lv ops p tag context_id msg
  | EntryPoint.warn => self.warn sys lv ops p tag context_id msg
  | EntryPoint.error => self.error sys lv ops p tag context_id msg

/-! ## SrsThreadContext::bind -/

/-- What one call of `SrsThreadContext::bind` leaves behind: the store `_srs_context`, the
static array `buffer`, and the arguments of the call `_srs_log->trace(NULL, cid, ...)`:
the context id and the expansion of the format with its arguments. -/
structure BindOutcome (Cid : Type) where
  ctx : SrsThreadContext Cid
  buffer : List Char
  trace_cid : Cid
  trace_msg : String

/-- The member `SrsThreadContext::bind(target, fmt, ...)` run on thread `self`; `reason` is
the expansion of `fmt` with the variadic arguments, `ctx` the store `_srs_context` and
`buffer` the static array of 256 characters. The result is `none` when a character is
stored outside `buffer` or `buffer` holds no NUL when it is read. -/
def SrsThreadContext.bind {Cid : Type} (sys : Sys) (ops : SrsContextIdOps Cid)
    (ctx : SrsThreadContext Cid) (self : srs_thread_t) (buffer : List Char) (target : Cid)
    (reason : String) : Option (BindOutcome Cid) :=
  -- SrsContextId cid = _srs_context->get_id();
  let r := ctx.get_id ops self
  match r.1.deref ops.dflt r.2 with
  | none => none
  | some cid =>
    -- cid.bind(target);
    let cid := ops.bind cid target
    -- _srs_context->set_id(cid);
    let ctx := (r.2.set_id ops self cid).2
    -- size = vsnprintf(buffer, sizeof(buffer), fmt, ap);
    match snprintf buffer 0 256 reason with
    | none => none
    | some (buffer, size) =>
      -- if (size < 0 || size >= sizeof(buffer)) size = 0;
      let size : Int := if size < 0 ∨ to_size_t size ≥ 256 then 0 else size
      -- pid_t pid = ::getpid();
      let pid := sys.getpid
      -- _srs_trace_by(cid, "Context bind [%u][%s] to [%u][%s], %.*s", ...);
      match c_string buffer with
      | none => none
      | some text =>
        some { ctx := ctx, buffer := buffer, trace_cid := cid,
               trace_msg := format "Context bind [%u][%s] to [%u][%s], %.*s"
                 [Arg.int pid, Arg.str (ops.c_str cid), Arg.int pid,
                  Arg.str (ops.c_str target), Arg.int size, Arg.str text] }

/-! ## SrsThreadContext::generate_id -/

/-- The functions of srs_kernel_utility that the file calls; they are defined outside
the translated file, so they are parameters. `Rng` is the state of the random generator. -/
structure Utility (Rng : Type) where
  /-- The call `srs_random_str(len)`: the string and the generator afterwards. -/
  srs_random_str : Rng → Nat → String × Rng
  /-- The characters `srs_data_to_hex_lowercase(des, src, len)` stores into `des`. -/
  srs_data_to_hex_lowercase : List Nat → Nat → List Char

/-- The MD5 functions of OpenSSL, each with its returned status. `Ctx` is the state of an
`MD5_CTX`; a digest is the list of bytes stored into `buf`. -/
structure MD5Lib (Ctx : Type) where
  MD5_Init : Int × Ctx
  MD5_Update : Ctx → String → Int × Ctx
  MD5_Final : Ctx → Int × List Nat

/-- The member `generate_id()`. -/
def SrsThreadContext.generate_id {Cid Rng : Type} (u : Utility Rng)
    (ops : SrsContextIdOps Cid) (ctx : SrsThreadContext Cid) (rng : Rng) :
    Cid × SrsThreadContext Cid × Rng :=
  let r := u.srs_random_str rng 8
  (ops.ofValue r.1, ctx, r.2)

/-- The member `generate_id(k)`. -/
def SrsThreadContext.generate_id_k {Cid Rng : Type} (u : Utility Rng)
    (ops : SrsContextIdOps Cid) (ctx : SrsThreadContext Cid) (rng : Rng) (k : String) :
    Cid × SrsThreadContext Cid × Rng :=
  let r := u.srs_random_str rng 8
  (ops.ofKeyValue k r.1, ctx, r.2)

/-- The member `generate_id(k, parent)`. -/
def SrsThreadContext.generate_id_k_parent {Cid Rng : Type} (u : Utility Rng)
    (ops : SrsContextIdOps Cid) (ctx : SrsThreadContext Cid) (rng : Rng) (k : String)
    (parent : Cid) : Cid × SrsThreadContext Cid × Rng :=
  let r := SrsThreadContext.generate_id_k u ops ctx rng k
  (ops.with_parent r.1 parent, r.2)

/-- The member `generate_id(k, appid, session)`, called with the store `ctx` and the random
generator `rng`. The result is the returned id with the store and the generator after the
call, or `none` when an `srs_assert` fails. -/
def SrsThreadContext.generate_id_k_appid_session {Cid Rng Ctx : Type} (md5 : MD5Lib Ctx)
    (u : Utility Rng) (ops : SrsContextIdOps Cid) (ctx : SrsThreadContext Cid) (rng : Rng)
    (k appid session : String) : Option (Cid × SrsThreadContext Cid × Rng) :=
  -- int r0 = MD5_Init(&ctx); srs_assert(r0 == 1);
  let i := md5.MD5_Init
  if i.1 ≠ 1 then none
  else
    -- std::string data = appid + std::string(":") + session;
    let data := appid ++ ":" ++ session
    -- r0 = MD5_Update(&ctx, data.data(), data.length()); srs_assert(r0 == 1);
    let m := md5.MD5_Update i.2 data
    if m.1 ≠ 1 then none
    else
      -- uint8_t buf[16]; r0 = MD5_Final(buf, &ctx); srs_assert(r0 == 1);
      let f := md5.MD5_Final m.2
      if f.1 ≠ 1 then none
      else
        let buf := f.2
        -- char v[8]; srs_data_to_hex_lowercase(v, buf, 4);
        let v := u.srs_data_to_hex_lowercase buf 4
        -- return SrsContextId(k, string(v, 8));
        some (ops.ofKeyValue k (String.mk (v.take 8)), ctx, rng)

/-! ## The specification's wording, for comparison with the code -/

/-- The decimal numeral of an integer, with a minus sign when negative. -/
def decimal (i : Int) : String :=
  if i < 0 then "-" ++ Nat.repr i.natAbs else Nat.repr i.natAbs

/-- The decimal numeral of `n`, zero-padded on the left to `w` digits. -/
def zero_padded (w : Nat) (n : Nat) : String :=
  fill '0' (w - (Nat.repr n).length) ++ Nat.repr n

/-- A field between square brackets. -/
def bracketed (s : String) : String := "[" ++ s ++ "]"

/-- The timestamp `YYYY-MM-DD HH:MM:SS.mmm`: month, day, hour, minute and second
zero-padded to 2 digits, milliseconds (`tv_usec / 1000`) zero-padded to 3 digits. -/
def timestamp (tv : struct_timeval) (tm : struct_tm) : String :=
  decimal (1900 + tm.tm_year) ++ "-" ++ zero_padded 2 (1 + tm.tm_mon).toNat ++ "-" ++
    zero_padded 2 tm.tm_mday.toNat ++ " " ++ zero_padded 2 tm.tm_hour.toNat ++ ":" ++
    zero_padded 2 tm.tm_min.toNat ++ ":" ++ zero_padded 2 tm.tm_sec.toNat ++ "." ++
    zero_padded 3 (tv.tv_usec / 1000).toNat

/-- The header as the specification lays it out: timestamp, level, the tag when there is
one, pid, context id, errno when `dangerous`, each in brackets, then one space. -/
def header_layout (tv : struct_timeval) (tm : struct_tm) (level : String)
    (tag : Option String) (pid : Int) (cid : String) (dangerous : Bool) (errno : Int) :
    String :=
  bracketed (timestamp tv tm) ++ bracketed level ++
    (match tag with | some t => bracketed t | none => "") ++
    bracketed (decimal pid) ++ bracketed cid ++
    (if dangerous then bracketed (decimal errno) else "") ++ " "

/-- The ranges of the members of a `struct tm` and of `tv_usec`; `tm_year` is an `int`
whose year `1900 + tm_year` is an `int` too. -/
def valid_time (tv : struct_timeval) (tm : struct_tm) : Prop :=
  -2147483648 ≤ tm.tm_year ∧ 1900 + tm.tm_year ≤ INT_MAX ∧
  0 ≤ tv.tv_usec ∧ tv.tv_usec < 1000000 ∧
  0 ≤ tm.tm_mon ∧ tm.tm_mon ≤ 11 ∧ 1 ≤ tm.tm_mday ∧ tm.tm_mday ≤ 31 ∧
  0 ≤ tm.tm_hour ∧ tm.tm_hour ≤ 23 ∧ 0 ≤ tm.tm_min ∧ tm.tm_min ≤ 59 ∧
  0 ≤ tm.tm_sec ∧ tm.tm_sec ≤ 60

/-- The line `bind` announces: the fixed text with the pid, the rebound id and the target,
followed by the reason. -/
def bind_announcement (pid : Int) (cid target reason : String) : String :=
  "Context bind [" ++ conv_u {} pid ++ "][" ++ cid ++ "] to [" ++ conv_u {} pid ++ "][" ++
    target ++ "], " ++ reason

/-- The formatted reason clamped to what fits the array of 256 characters: its longest
prefix that leaves room for the NUL. -/
def clamped_reason (reason : String) : String := String.mk (reason.data.take 255)

/-! ## Sample values -/

/-- A sample `SrsContextId`: ids are strings, composed with fixed separators. -/
def sampleOps : SrsContextIdOps String :=
  { dflt := "", ofValue := fun v => v, ofKeyValue := fun k v => k ++ "-" ++ v,
    with_parent := fun c p => c ++ "<" ++ p, bind := fun c t => c ++ ">" ++ t,
    c_str := fun c => c }

/-- A store in which only thread 1 has an entry, the id "A". -/
def sampleStore : SrsThreadContext String :=
  { cache := fun t => if t = 1 then some "A" else none }

/-- A store without entries. -/
def emptyStore : SrsThreadContext String :=
  { cache := fun _ => none }

/-- Sample values of the enumerators of `SrsLogLevel`, in increasing order. -/
def sampleLevels : SrsLogLevel :=
  { SrsLogLevelVerbose := 1, SrsLogLevelInfo := 2, SrsLogLevelTrace := 4,
    SrsLogLevelWarn := 8, SrsLogLevelError := 16 }

/-- The sample clock time: 1584147723 s and 45678 microseconds. -/
def sampleTv : struct_timeval := { tv_sec := 1584147723, tv_usec := 45678 }

/-- The sample calendar time: 2020-03-14 01:02:03. -/
def sampleTm : struct_tm :=
  { tm_year := 120, tm_mon := 2, tm_mday := 14, tm_hour := 1, tm_min := 2, tm_sec := 3 }

/-- A sample environment: the sample clock and calendar time, process 4321. -/
def sampleSys : Sys :=
  { gettimeofday := some sampleTv,
    gmtime := fun _ => some sampleTm,
    localtime := fun _ => some sampleTm,
    getpid := 4321,
    strerror := fun e => if e = 11 then "Resource temporarily unavailable" else "Unknown error" }

/-- The sample header with errno and without a tag; it has 53 characters. -/
def sampleHeader : String := "[2020-03-14 01:02:03.045][Error][4321][abcd1234][11] "

/-- A sample process state: `errno` is 11 and nothing has been written. -/
def sampleProc : Proc := { errno := 11, stdout := "", stderr := "" }

/-- A sample console log created with level 2 (Info) and UTC. -/
def sampleLog : SrsConsoleLog := SrsConsoleLog.ctor 2 true (fun _ => 'x')

/-- A sample digest library: the context collects the bytes, the digest is 16 bytes
derived from their sum. Every call reports success. -/
def sampleMD5 : MD5Lib (List Nat) :=
  { MD5_Init := (1, []),
    MD5_Update := fun c d => (1, c ++ d.data.map Char.toNat),
    MD5_Final := fun c => (1, (List.range 16).map (fun i => (c.sum + 37 * i) % 256)) }

/-- The lowercase hexadecimal digit of a value below 16. -/
def hex_digit (n : Nat) : Char := "0123456789abcdef".data.getD n '0'

/-- A sample utility: a constant random string, and an encoder that stores two lowercase
hexadecimal digits for each of the first `len` bytes. -/
def sampleUtility : Utility Nat :=
  { srs_random_str := fun rng n => (fill 'r' n, rng + 1),
    srs_data_to_hex_lowercase := fun src len =>
      (List.range len).flatMap
        (fun i => [hex_digit (src.getD i 0 / 16 % 16), hex_digit (src.getD i 0 % 16)]) }

/-! ## The store: lemmas -/

theorem set_id_cache {Cid : Type} (ops : SrsContextIdOps Cid) (ctx : SrsThreadContext Cid)
    (self : srs_thread_t) (v : Cid) (t : srs_thread_t) :
    (ctx.set_id ops self v).2.cache t = if t = self then some v else ctx.cache t := by
  unfold SrsThreadContext.set_id
  split <;> by_cases h : t = self <;> simp [Cache.assign, Cache.subscript, h]

theorem get_id_cache {Cid : Type} (ops : SrsContextIdOps Cid) (ctx : SrsThreadContext Cid)
    (self : srs_thread_t) (t : srs_thread_t) :
    (ctx.get_id ops self).2.cache t =
      if t = self then some ((ctx.cache self).getD ops.dflt) else ctx.cache t := by
  unfold SrsThreadContext.get_id
  by_cases h : t = self
  · subst h
    cases hc : ctx.cache t <;> simp [Cache.subscript, hc]
  · simp [Cache.subscript, h]

theorem clear_cid_cache {Cid : Type} (ctx : SrsThreadContext Cid)
    (self : srs_thread_t) (t : srs_thread_t) :
    (ctx.clear_cid self).cache t = if t = self then none else ctx.cache t := by
  unfold SrsThreadContext.clear_cid
  by_cases h : t = self
  · subst h
    cases hc : ctx.cache t <;> simp [Cache.erase, hc]
  · split <;> simp [Cache.erase, h]

theorem get_id_value_eq {Cid : Type} (ops : SrsContextIdOps Cid)
    (ctx : SrsThreadContext Cid) (self : srs_thread_t) :
    ctx.get_id_value ops self = some ((ctx.cache self).getD ops.dflt) := by
  have h := get_id_cache ops ctx self self
  simp only [if_true] at h
  simpa [SrsThreadContext.get_id_value, CidRef.deref, SrsThreadContext.get_id] using h

theorem set_id_value_eq {Cid : Type} (ops : SrsContextIdOps Cid)
    (ctx : SrsThreadContext Cid) (self : srs_thread_t) (v : Cid) :
    ctx.set_id_value ops self v = some v := by
  have h := set_id_cache ops ctx self v self
  simp only [if_true] at h
  unfold SrsThreadContext.set_id_value
  unfold SrsThreadContext.set_id at h ⊢
  split <;> simp_all [CidRef.deref]

/-! ## snprintf: lemmas -/

theorem to_size_t_of_int {n : Int} (h0 : 0 ≤ n) (h1 : n ≤ INT_MAX) :
    to_size_t n = n.toNat := by
  unfold to_size_t
  unfold INT_MAX at h1
  rw [Int.emod_eq_of_lt h0 (by omega)]

theorem snprintf_stored_length_le (n : Nat) (s : String) :
    (snprintf_stored n s).length ≤ n := by
  unfold snprintf_stored
  split
  · simp
  · simp only [List.length_append, List.length_take, List.length_singleton]
    omega

theorem snprintf_in_bounds (mem : List Char) (size : Int) (s : String)
    (h0 : 0 ≤ size) (h1 : size ≤ INT_MAX) (hcap : size ≤ mem.length) :
    ∃ mem', snprintf mem 0 size s = some (mem', snprintf_return s) := by
  have hlen := snprintf_stored_length_le (to_size_t size) s
  have hsz := to_size_t_of_int h0 h1
  unfold snprintf
  simp only []
  rw [if_pos]
  · exact ⟨_, rfl⟩
  · constructor
    · exact le_refl 0
    · simp only [Int.toNat_zero, zero_add]
      omega

theorem snprintf_stored_fits (n : Int) (s : String) (hn1 : n ≤ INT_MAX)
    (hfit : (s.length : Int) < n) :
    snprintf_stored (to_size_t n) s = s.data ++ [NUL] := by
  have hn0 : 0 ≤ n := by omega
  rw [to_size_t_of_int hn0 hn1]
  unfold snprintf_stored
  have hlen : s.data.length = s.length := rfl
  rw [if_neg (by omega), List.take_of_length_le (by omega)]

theorem snprintf_return_fits (n : Int) (s : String) (hn1 : n ≤ INT_MAX)
    (hfit : (s.length : Int) < n) : snprintf_return s = s.length := by
  unfold snprintf_return
  rw [if_pos (by omega)]

theorem snprintf_eq_some_fits (mem : List Char) (off n : Int) (s : String)
    (mem' : List Char) (r : Int) (h : snprintf mem off n s = some (mem', r))
    (hn1 : n ≤ INT_MAX) (hfit : (s.length : Int) < n) :
    mem' = mem.take off.toNat ++ (s.data ++ [NUL]) ++ mem.drop (off.toNat + (s.length + 1))
      ∧ r = s.length := by
  unfold snprintf at h
  dsimp only at h
  simp only [snprintf_stored_fits n s hn1 hfit, snprintf_return_fits n s hn1 hfit] at h
  split at h
  · simp only [Option.some.injEq, Prod.mk.injEq] at h
    obtain ⟨h1, h2⟩ := h
    refine ⟨?_, h2.symm⟩
    have hlen : s.data.length = s.length := rfl
    rw [← h1, List.length_append, List.length_singleton, hlen]
  · cases h

theorem snprintf_ok (mem : List Char) (off n : Int) (s : String) (h0 : 0 ≤ off)
    (hn0 : 0 ≤ n) (hn1 : n ≤ INT_MAX) (hcap : off + n ≤ mem.length) :
    snprintf mem off n s =
      some (mem.take off.toNat ++ snprintf_stored n.toNat s ++
        mem.drop (off.toNat + (snprintf_stored n.toNat s).length), snprintf_return s) := by
  have hlen := snprintf_stored_length_le n.toNat s
  unfold snprintf
  dsimp only
  rw [to_size_t_of_int hn0 hn1, if_pos]
  exact ⟨h0, by omega⟩

theorem snprintf_length (mem : List Char) (off n : Int) (s : String) (mem' : List Char)
    (r : Int) (h : snprintf mem off n s = some (mem', r)) : mem'.length = mem.length := by
  unfold snprintf at h
  dsimp only at h
  split at h
  · rename_i hb
    simp only [Option.some.injEq, Prod.mk.injEq] at h
    rw [← h.1]
    simp only [List.length_append, List.length_take, List.length_drop]
    omega
  · cases h

theorem snprintf_outside (mem : List Char) (off n : Int) (s : String)
    (h : (mem.length : Int) < off) : snprintf mem off n s = none := by
  unfold snprintf
  dsimp only
  rw [if_neg]
  intro hb
  omega

theorem snprintf_stored_has_nul (n : Nat) (s : String) (hn : n ≠ 0) :
    NUL ∈ snprintf_stored n s := by
  unfold snprintf_stored
  simp [hn]

/-! ## The header text: lemmas -/

set_option maxRecDepth 100000 in
theorem zero_padded_two_length : ∀ n, n < 100 → (zero_padded 2 n).length = 2 := by decide

set_option maxRecDepth 1000000 in
set_option maxHeartbeats 4000000 in
theorem zero_padded_three_length : ∀ n, n < 1000 → (zero_padded 3 n).length = 3 := by decide

theorem conv_d_plain (i : Int) : conv_d {} i = decimal i := by
  unfold conv_d decimal
  by_cases h : i < 0 <;> simp [h, fill]

theorem conv_d_zero_padded (w : Nat) (i : Int) (h : 0 ≤ i) :
    conv_d { zero := true, width := w } i = zero_padded w i.toNat := by
  unfold conv_d zero_padded
  have hn : i.natAbs = i.toNat := by omega
  have hneg : ¬ i < 0 := by omega
  simp [hneg, hn]

theorem to_int_of_int (x : Int) (h0 : -2147483648 ≤ x) (h1 : x ≤ INT_MAX) :
    to_int x = x := by
  unfold to_int
  unfold INT_MAX at h1
  omega

theorem to_int_millis (usec : Int) (h0 : 0 ≤ usec) (h1 : usec < 1000000) :
    to_int (Int.tdiv usec 1000) = usec / 1000 := by
  rw [Int.tdiv_eq_ediv h0 (by omega)]
  unfold to_int
  omega

theorem srs_log_header_text_eq_layout {Cid : Type} (sys : Sys) (ops : SrsContextIdOps Cid)
    (errno : Int) (tv : struct_timeval) (tm : struct_tm) (dangerous : Bool)
    (tag : Option String) (cid : Cid) (level : String) (hv : valid_time tv tm) :
    srs_log_header_text sys ops errno tv tm dangerous tag cid level =
      header_layout tv tm level tag sys.getpid (ops.c_str cid) dangerous errno := by
  obtain ⟨y0, y1, u0, u1, mo0, mo1, d0, _, h0, _, mi0, _, s0, _⟩ := hv
  unfold srs_log_header_text header_layout timestamp bracketed
  cases dangerous <;> cases tag <;>
    simp [format, vformat, conv_s, digitVal, conv_d_plain, to_int_millis tv.tv_usec u0 u1,
      to_int_of_int (1900 + tm.tm_year) (by omega) y1,
      to_int_of_int (1 + tm.tm_mon) (by omega) (by unfold INT_MAX; omega),
      conv_d_zero_padded 2 (1 + tm.tm_mon) (by omega), conv_d_zero_padded 2 tm.tm_mday (by omega),
      conv_d_zero_padded 2 tm.tm_hour h0, conv_d_zero_padded 2 tm.tm_min mi0,
      conv_d_zero_padded 2 tm.tm_sec s0, conv_d_zero_padded 3 (tv.tv_usec / 1000) (by omega),
      String.append_assoc]
  all_goals rfl

theorem srs_log_header_fits {Cid : Type} (sys : Sys) (ops : SrsContextIdOps Cid)
    (errno : Int) (buffer : List Char) (size : Int) (utc dangerous : Bool)
    (tag : Option String) (cid : Cid) (level : String) (psize : Int)
    (tv : struct_timeval) (tm : struct_tm)
    (hclock : sys.gettimeofday = some tv) (hcal : to_calendar sys utc tv = some tm)
    (h1 : size ≤ INT_MAX) (hcap : size ≤ buffer.length)
    (hfit : ((srs_log_header_text sys ops errno tv tm dangerous tag cid level).length : Int)
      < size) :
    ∃ buffer', srs_log_header sys ops errno buffer size utc dangerous tag cid level psize
        = some (true, buffer',
          ((srs_log_header_text sys ops errno tv tm dangerous tag cid level).length : Int)) ∧
      buffer'.length = buffer.length := by
  have h0 : 0 ≤ size := by omega
  obtain ⟨mem', hs⟩ := snprintf_in_bounds buffer size
    (srs_log_header_text sys ops errno tv tm dangerous tag cid level) h0 h1 hcap
  have hlen := snprintf_length _ _ _ _ _ _ hs
  rw [snprintf_return_fits size _ h1 hfit] at hs
  refine ⟨mem', ?_, hlen⟩
  unfold srs_log_header
  simp only [hclock, hcal, hs]
  rw [if_neg (by omega), if_neg (by omega)]

theorem error_formatted_size {Cid : Type} (sys : Sys) (ops : SrsContextIdOps Cid)
    (self : SrsConsoleLog) (p : Proc) (tag : Option String) (context_id : Cid)
    (msg : String) (tv : struct_timeval) (tm : struct_tm)
    (hclock : sys.gettimeofday = some tv) (hcal : to_calendar sys self.utc tv = some tm)
    (hbuf : (self.buffer.length : Int) = SRS_BASIC_LOG_SIZE)
    (hfit : ((srs_log_header_text sys ops p.errno tv tm true tag context_id "Error").length
      : Int) < SRS_BASIC_LOG_SIZE) :
    ∃ log', self.error_formatted sys ops p tag context_id msg
        = some (log', some
          (((srs_log_header_text sys ops p.errno tv tm true tag context_id "Error").length
            : Int) + snprintf_return msg)) ∧
      (log'.buffer.length : Int) = SRS_BASIC_LOG_SIZE := by
  obtain ⟨b1, hh, hl1⟩ := srs_log_header_fits sys ops p.errno self.buffer SRS_BASIC_LOG_SIZE
    self.utc true tag context_id "Error" 0 tv tm hclock hcal (by decide) (by omega) hfit
  generalize (srs_log_header_text sys ops p.errno tv tm true tag context_id "Error").length
    = L at *
  have hsz : SRS_BASIC_LOG_SIZE = 8192 := rfl
  have hmax : INT_MAX = 2147483647 := rfl
  have hs := snprintf_ok b1 L (SRS_BASIC_LOG_SIZE - L) msg (by omega) (by omega) (by omega)
    (by omega)
  have hl2 := snprintf_length _ _ _ _ _ _ hs
  unfold SrsConsoleLog.error_formatted
  simp only [hh, hs]
  exact ⟨_, rfl, by simp only [hl2]; omega⟩

/-! ## The store and the scoped restore: claims -/

/-- C1: in a store where thread 1 holds the id "A", `get_id` on thread 1 yields "A", and
the value obtained from `set_id("B")` on thread 1 is the new id "B", not the preceding
id "A"; "B" is installed. -/
theorem set_id_second_call_yields_new_id :
    sampleStore.get_id_value sampleOps 1 = some "A" ∧
    sampleStore.set_id_value sampleOps 1 "B" = some "B" ∧
    sampleStore.set_id_value sampleOps 1 "B" ≠ some "A" ∧
    (sampleStore.set_id sampleOps 1 "B").2.get_id_value sampleOps 1 = some "B" := by
  decide

/-- C2, as stated, fails: thread 1 has no entry in the empty store, and after `get_id` on
thread 1 it has one. -/
theorem get_id_creates_entry :
    emptyStore.cache 1 = none ∧ ¬ ((emptyStore.get_id sampleOps 1).2.cache 1 = none) := by
  decide

/-- C2, amended: after `get_id` on thread `t` every other thread has the entry it had, `t`
has the entry it had or, when it had none, a new entry holding the default id; the call
yields that entry's id, the default id when `t` had no entry. -/
theorem get_id_store_effect {Cid : Type} (ops : SrsContextIdOps Cid)
    (ctx : SrsThreadContext Cid) (t t' : srs_thread_t) :
    (ctx.get_id ops t).2.cache t' =
        (if t' = t then some ((ctx.cache t).getD ops.dflt) else ctx.cache t') ∧
    ctx.get_id_value ops t = some ((ctx.cache t).getD ops.dflt) :=
  ⟨get_id_cache ops ctx t t', get_id_value_eq ops ctx t⟩

/-- C3: after `set_id(A)`, a guard built with the snapshot `A`, any sequence of
`set_id`/`get_id`/`clear_cid` calls of the protected code on the same thread, and the
destructor of the guard, `get_id` on that thread yields `A`. -/
theorem restore_reinstalls_snapshot {Cid : Type} (ops : SrsContextIdOps Cid)
    (ctx : SrsThreadContext Cid) (self : srs_thread_t) (A : Cid)
    (calls : List (StoreCall Cid)) :
    let ctx1 := (ctx.set_id ops self A).2
    let guard := impl_SrsContextRestore.ctor A
    let ctx2 := runCalls ops self ctx1 calls
    let ctx3 := guard.dtor ops ctx2 self
    ctx3.get_id_value ops self = some A := by
  intro ctx1 guard ctx2 ctx3
  rw [get_id_value_eq]
  have h : ctx3.cache self = some A := by
    simp only [ctx3, guard, impl_SrsContextRestore.dtor, impl_SrsContextRestore.ctor]
    rw [set_id_cache]
    simp
  simp [h]

/-- C9: a `set_id`, `get_id` or `clear_cid` call made on thread `t1` leaves the value
`get_id` yields on thread `t2` unchanged whenever `t1` and `t2` are distinct threads or the
call is `get_id`: only the own `set_id` or `clear_cid` of `t2` changes it. -/
theorem other_thread_id_unchanged {Cid : Type} (ops : SrsContextIdOps Cid)
    (ctx : SrsThreadContext Cid) (t1 t2 : srs_thread_t) (call : StoreCall Cid)
    (h : t1 ≠ t2 ∨ call = StoreCall.get_id) :
    (StoreCall.run ops t1 ctx call).get_id_value ops t2 = ctx.get_id_value ops t2 := by
  rw [get_id_value_eq, get_id_value_eq]
  cases call with
  | get_id =>
    simp only [StoreCall.run]
    rw [get_id_cache]
    by_cases e : t2 = t1
    · subst e
      cases hc : ctx.cache t2 <;> simp [hc]
    · simp [e]
  | set_id v =>
    have ne : t2 ≠ t1 := by
      rcases h with h | h
      · exact fun e => h e.symm
      · cases h
    simp only [StoreCall.run]
    rw [set_id_cache]
    simp [ne]
  | clear_cid =>
    have ne : t2 ≠ t1 := by
      rcases h with h | h
      · exact fun e => h e.symm
      · cases h
    simp only [StoreCall.run]
    rw [clear_cid_cache]
    simp [ne]

/-- C9 at a concrete input: `set_id("B")` on thread 2 of the sample store. -/
theorem other_thread_id_unchanged_witness :
    ((2 : srs_thread_t) ≠ 1 ∨ StoreCall.set_id "B" = StoreCall.get_id) ∧
    (StoreCall.run sampleOps 2 sampleStore (StoreCall.set_id "B")).get_id_value sampleOps 1
      = sampleStore.get_id_value sampleOps 1 :=
  ⟨Or.inl (by decide),
    other_thread_id_unchanged sampleOps sampleStore 2 1 (StoreCall.set_id "B")
      (Or.inl (by decide))⟩

/-! ## srs_log_header: claims -/

/-- C4: when the clock read and the calendar conversion succeed and `size` is the capacity
of the array (`0 ≤ size ≤ INT_MAX`, at most the length of the array), with `L` the length
of the fully rendered header: `srs_log_header` returns, it returns `true` exactly when
`L < size`, `false` when `size = L`, `true` when `size = L + 1`, and whenever it returns
`true` the value stored through `psize` is `L`. -/
theorem srs_log_header_true_iff {Cid : Type} (sys : Sys) (ops : SrsContextIdOps Cid)
    (errno : Int) (buffer : List Char) (size : Int) (utc dangerous : Bool)
    (tag : Option String) (cid : Cid) (level : String) (psize : Int)
    (tv : struct_timeval) (tm : struct_tm)
    (hclock : sys.gettimeofday = some tv) (hcal : to_calendar sys utc tv = some tm)
    (h0 : 0 ≤ size) (h1 : size ≤ INT_MAX) (hcap : size ≤ buffer.length) :
    ∃ (ok : Bool) (buffer' : List Char) (psize' : Int),
      srs_log_header sys ops errno buffer size utc dangerous tag cid level psize
        = some (ok, buffer', psize') ∧
      (ok = true ↔
        ((srs_log_header_text sys ops errno tv tm dangerous tag cid level).length : Int)
          < size) ∧
      (size = ((srs_log_header_text sys ops errno tv tm dangerous tag cid level).length : Int)
        → ok = false) ∧
      (size = ((srs_log_header_text sys ops errno tv tm dangerous tag cid level).length : Int)
        + 1 → ok = true) ∧
      (ok = true → psize' =
        ((srs_log_header_text sys ops errno tv tm dangerous tag cid level).length : Int)) := by
  obtain ⟨mem', hs⟩ := snprintf_in_bounds buffer size
    (srs_log_header_text sys ops errno tv tm dangerous tag cid level) h0 h1 hcap
  generalize hL : (srs_log_header_text sys ops errno tv tm dangerous tag cid level).length
    = L at *
  unfold srs_log_header
  simp only [hclock, hcal, hs]
  unfold snprintf_return
  rw [hL]
  by_cases hfit : (L : Int) ≤ INT_MAX
  · rw [if_pos hfit]
    by_cases hge : (L : Int) ≥ size
    · rw [if_pos hge]
      refine ⟨false, mem', psize, rfl, ?_, ?_, ?_, ?_⟩
      · simp; omega
      · intro _; rfl
      · intro h; omega
      · intro h; cases h
    · rw [if_neg hge, if_neg (by omega)]
      refine ⟨true, mem', L, rfl, ?_, ?_, ?_, ?_⟩
      · simp; omega
      · intro h; omega
      · intro _; rfl
      · intro _; rfl
  · rw [if_neg hfit, if_neg (by omega), if_pos rfl]
    refine ⟨false, mem', psize, rfl, ?_, ?_, ?_, ?_⟩
    · simp; omega
    · intro _; rfl
    · intro h; omega
    · intro h; cases h

/-- C4 at a concrete input: the sample header of 53 characters and `size = 54`. -/
theorem srs_log_header_true_iff_witness :
    (sampleSys.gettimeofday = some sampleTv ∧ to_calendar sampleSys true sampleTv = some sampleTm ∧
      (0 : Int) ≤ 54 ∧ (54 : Int) ≤ INT_MAX ∧
      (54 : Int) ≤ (List.replicate 64 'x').length) ∧
    ∃ (ok : Bool) (buffer' : List Char) (psize' : Int),
      srs_log_header sampleSys sampleOps 11 (List.replicate 64 'x') 54 true true none
        "abcd1234" "Error" 0 = some (ok, buffer', psize') ∧
      (ok = true ↔
        ((srs_log_header_text sampleSys sampleOps 11 sampleTv sampleTm true none "abcd1234"
          "Error").length : Int) < 54) ∧
      ((54 : Int) = ((srs_log_header_text sampleSys sampleOps 11 sampleTv sampleTm true none
          "abcd1234" "Error").length : Int) → ok = false) ∧
      ((54 : Int) = ((srs_log_header_text sampleSys sampleOps 11 sampleTv sampleTm true none
          "abcd1234" "Error").length : Int) + 1 → ok = true) ∧
      (ok = true → psize' =
        ((srs_log_header_text sampleSys sampleOps 11 sampleTv sampleTm true none "abcd1234"
          "Error").length : Int)) :=
  ⟨⟨rfl, rfl, by decide, by decide, by decide⟩,
    srs_log_header_true_iff sampleSys sampleOps 11 (List.replicate 64 'x') 54 true true none
      "abcd1234" "Error" 0 sampleTv sampleTm rfl rfl (by decide) (by decide) (by decide)⟩

/-- C5: for a successful call of `srs_log_header` (calendar fields in their ranges, the
year `1900 + tm_year` an `int`, `size` an `int`),
the array then holds, followed by the NUL, the header laid out as
`[timestamp][level]`, `[tag]` exactly when there is a tag, `[pid][cid]`, `[errno]` exactly
when `dangerous`, and one space, with the timestamp `YYYY-MM-DD HH:MM:SS.mmm` zero-padded as
the specification says; the length stored through `psize` is the length of that header;
month, day, hour, minute and second take exactly 2 characters, the milliseconds 3. -/
theorem srs_log_header_layout {Cid : Type} (sys : Sys) (ops : SrsContextIdOps Cid)
    (errno : Int) (buffer : List Char) (size : Int) (utc dangerous : Bool)
    (tag : Option String) (cid : Cid) (level : String) (psize : Int)
    (tv : struct_timeval) (tm : struct_tm) (buffer' : List Char) (psize' : Int)
    (hclock : sys.gettimeofday = some tv) (hcal : to_calendar sys utc tv = some tm)
    (hv : valid_time tv tm) (h1 : size ≤ INT_MAX)
    (hok : srs_log_header sys ops errno buffer size utc dangerous tag cid level psize
      = some (true, buffer', psize')) :
    srs_log_header_text sys ops errno tv tm dangerous tag cid level
      = header_layout tv tm level tag sys.getpid (ops.c_str cid) dangerous errno ∧
    buffer' = (header_layout tv tm level tag sys.getpid (ops.c_str cid) dangerous errno).data
      ++ NUL :: buffer.drop
        ((header_layout tv tm level tag sys.getpid (ops.c_str cid) dangerous errno).length + 1)
    ∧ psize' =
      ((header_layout tv tm level tag sys.getpid (ops.c_str cid) dangerous errno).length : Int)
    ∧ ((zero_padded 2 (1 + tm.tm_mon).toNat).length = 2 ∧
      (zero_padded 2 tm.tm_mday.toNat).length = 2 ∧
      (zero_padded 2 tm.tm_hour.toNat).length = 2 ∧
      (zero_padded 2 tm.tm_min.toNat).length = 2 ∧
      (zero_padded 2 tm.tm_sec.toNat).length = 2 ∧
      (zero_padded 3 (tv.tv_usec / 1000).toNat).length = 3) := by
  have htext := srs_log_header_text_eq_layout sys ops errno tv tm dangerous tag cid level hv
  have hwidth : (zero_padded 2 (1 + tm.tm_mon).toNat).length = 2 ∧
      (zero_padded 2 tm.tm_mday.toNat).length = 2 ∧
      (zero_padded 2 tm.tm_hour.toNat).length = 2 ∧
      (zero_padded 2 tm.tm_min.toNat).length = 2 ∧
      (zero_padded 2 tm.tm_sec.toNat).length = 2 ∧
      (zero_padded 3 (tv.tv_usec / 1000).toNat).length = 3 := by
    obtain ⟨_, _, u0, u1, mo0, mo1, d0, d1, ho0, ho1, mi0, mi1, s0, s1⟩ := hv
    exact ⟨zero_padded_two_length _ (by omega), zero_padded_two_length _ (by omega),
      zero_padded_two_length _ (by omega), zero_padded_two_length _ (by omega),
      zero_padded_two_length _ (by omega), zero_padded_three_length _ (by omega)⟩
  rw [← and_assoc, ← and_assoc]
  refine ⟨?_, hwidth⟩
  rw [and_assoc]
  refine ⟨htext, ?_⟩
  unfold srs_log_header at hok
  simp only [hclock, hcal, htext] at hok
  generalize header_layout tv tm level tag sys.getpid (ops.c_str cid) dangerous errno = text
    at hok ⊢
  cases hs : snprintf buffer 0 size text with
  | none => simp [hs] at hok
  | some r =>
    obtain ⟨mem', written⟩ := r
    simp only [hs] at hok
    have hw : written = snprintf_return text := by
      unfold snprintf at hs
      dsimp only at hs
      split at hs
      · simp only [Option.some.injEq, Prod.mk.injEq] at hs
        exact hs.2.symm
      · cases hs
    split at hok
    · simp at hok
    · rename_i hlt
      split at hok
      · simp at hok
      · rename_i hne
        simp only [Option.some.injEq, Prod.mk.injEq, true_and] at hok
        obtain ⟨hb, hp⟩ := hok
        have hfit : (text.length : Int) < size := by
          unfold snprintf_return at hw
          split at hw <;> omega
        obtain ⟨e1, e2⟩ := snprintf_eq_some_fits buffer 0 size text mem' written hs h1 hfit
        subst hb hp
        refine ⟨?_, e2⟩
        rw [e1]
        simp

set_option maxRecDepth 20000 in
/-- C5 at a concrete input: the sample header written into an array of 64 characters. -/
theorem srs_log_header_layout_witness :
    (sampleSys.gettimeofday = some sampleTv ∧ to_calendar sampleSys true sampleTv = some sampleTm ∧
      valid_time sampleTv sampleTm ∧ (64 : Int) ≤ INT_MAX ∧
      srs_log_header sampleSys sampleOps 11 (List.replicate 64 'x') 64 true true none
        "abcd1234" "Error" 0
        = some (true, sampleHeader.data ++ NUL :: List.replicate 10 'x', 53)) ∧
    (srs_log_header_text sampleSys sampleOps 11 sampleTv sampleTm true none "abcd1234" "Error"
      = header_layout sampleTv sampleTm "Error" none sampleSys.getpid
          (sampleOps.c_str "abcd1234") true 11 ∧
    sampleHeader.data ++ NUL :: List.replicate 10 'x'
      = (header_layout sampleTv sampleTm "Error" none sampleSys.getpid
          (sampleOps.c_str "abcd1234") true 11).data
        ++ NUL :: (List.replicate 64 'x').drop
          ((header_layout sampleTv sampleTm "Error" none sampleSys.getpid
            (sampleOps.c_str "abcd1234") true 11).length + 1) ∧
    (53 : Int) = ((header_layout sampleTv sampleTm "Error" none sampleSys.getpid
        (sampleOps.c_str "abcd1234") true 11).length : Int) ∧
    ((zero_padded 2 (1 + sampleTm.tm_mon).toNat).length = 2 ∧
      (zero_padded 2 sampleTm.tm_mday.toNat).length = 2 ∧
      (zero_padded 2 sampleTm.tm_hour.toNat).length = 2 ∧
      (zero_padded 2 sampleTm.tm_min.toNat).length = 2 ∧
      (zero_padded 2 sampleTm.tm_sec.toNat).length = 2 ∧
      (zero_padded 3 (sampleTv.tv_usec / 1000).toNat).length = 3)) :=
  ⟨⟨rfl, rfl, by unfold valid_time; decide, by decide, by decide⟩,
    srs_log_header_layout sampleSys sampleOps 11 (List.replicate 64 'x') 64 true true none
      "abcd1234" "Error" 0 sampleTv sampleTm _ _ rfl rfl (by unfold valid_time; decide)
      (by decide) (by decide)⟩

/-! ## generate_id and the console threshold: claims -/

/-- C6: when the MD5 calls report success and the encoder stores 8 characters for 4 bytes,
`generate_id(k, appid, session)` returns, from any two stores and random generator states,
the same id: the one built from `k` and the 8-character encoding of the first 4 bytes of
the digest of `appid ++ ":" ++ session`; store and generator are left as they were. -/
theorem generate_id_deterministic {Cid Rng Ctx : Type} (md5 : MD5Lib Ctx) (u : Utility Rng)
    (ops : SrsContextIdOps Cid) (ctx1 ctx2 : SrsThreadContext Cid) (rng1 rng2 : Rng)
    (k appid session : String)
    (hInit : md5.MD5_Init.1 = 1) (hUpdate : ∀ c d, (md5.MD5_Update c d).1 = 1)
    (hFinal : ∀ c, (md5.MD5_Final c).1 = 1)
    (hHex : ∀ src, (u.srs_data_to_hex_lowercase src 4).length = 8) :
    let digest := (md5.MD5_Final (md5.MD5_Update md5.MD5_Init.2 (appid ++ ":" ++ session)).2).2
    let hex := String.mk (u.srs_data_to_hex_lowercase digest 4)
    SrsThreadContext.generate_id_k_appid_session md5 u ops ctx1 rng1 k appid session
      = some (ops.ofKeyValue k hex, ctx1, rng1) ∧
    SrsThreadContext.generate_id_k_appid_session md5 u ops ctx2 rng2 k appid session
      = some (ops.ofKeyValue k hex, ctx2, rng2) ∧
    hex.length = 8 := by
  intro digest hex
  have htake : ∀ src, (u.srs_data_to_hex_lowercase src 4).take 8
      = u.srs_data_to_hex_lowercase src 4 :=
    fun src => List.take_of_length_le (by rw [hHex src])
  refine ⟨?_, ?_, hHex digest⟩ <;>
    simp [SrsThreadContext.generate_id_k_appid_session, hInit, hUpdate, hFinal, htake, hex,
      digest]

/-- C6 at a concrete input: the sample digest library and encoder, two different stores and
generator states. -/
theorem generate_id_deterministic_witness :
    (sampleMD5.MD5_Init.1 = 1 ∧ (∀ c d, (sampleMD5.MD5_Update c d).1 = 1) ∧
      (∀ c, (sampleMD5.MD5_Final c).1 = 1) ∧
      (∀ src, (sampleUtility.srs_data_to_hex_lowercase src 4).length = 8)) ∧
    (let digest :=
        (sampleMD5.MD5_Final (sampleMD5.MD5_Update sampleMD5.MD5_Init.2
          ("live" ++ ":" ++ "s1")).2).2
     let hex := String.mk (sampleUtility.srs_data_to_hex_lowercase digest 4)
     SrsThreadContext.generate_id_k_appid_session sampleMD5 sampleUtility sampleOps
        emptyStore 0 "k" "live" "s1" = some (sampleOps.ofKeyValue "k" hex, emptyStore, 0) ∧
     SrsThreadContext.generate_id_k_appid_session sampleMD5 sampleUtility sampleOps
        sampleStore 7 "k" "live" "s1" = some (sampleOps.ofKeyValue "k" hex, sampleStore, 7) ∧
     hex.length = 8) :=
  ⟨⟨rfl, fun _ _ => rfl, fun _ => rfl, fun _ => rfl⟩,
    generate_id_deterministic sampleMD5 sampleUtility sampleOps emptyStore sampleStore 0 7
      "k" "live" "s1" rfl (fun _ _ => rfl) (fun _ => rfl) (fun _ => rfl)⟩

/-- C7: when the configured level is strictly greater than the level of an entry point
(`verbose`, `info`, `trace`, `warn`, `error`), the call returns with the object (and so
its buffer) and the process state (and so both standard streams) unchanged; with the levels
ordered Verbose < Info < Trace < Warn < Error, `verbose` at configured level Info writes
nothing. -/
theorem console_below_threshold_is_silent {Cid : Type} (sys : Sys) (lv : SrsLogLevel)
    (ops : SrsContextIdOps Cid) (self : SrsConsoleLog) (p : Proc) (e : EntryPoint)
    (tag : Option String) (context_id : Cid) (msg : String)
    (horder : lv.SrsLogLevelVerbose < lv.SrsLogLevelInfo ∧
      lv.SrsLogLevelInfo < lv.SrsLogLevelTrace ∧ lv.SrsLogLevelTrace < lv.SrsLogLevelWarn ∧
      lv.SrsLogLevelWarn < lv.SrsLogLevelError)
    (h : self.level > e.level lv) :
    self.call sys lv ops p e tag context_id msg = some (self, p) ∧
    (self.level = lv.SrsLogLevelInfo →
      self.verbose sys lv ops p tag context_id msg = some (self, p)) := by
  constructor
  · cases e <;>
      simp only [EntryPoint.level] at h <;>
      simp [SrsConsoleLog.call, SrsConsoleLog.verbose, SrsConsoleLog.info,
        SrsConsoleLog.trace, SrsConsoleLog.warn, SrsConsoleLog.error, h]
  · intro hl
    have hv : self.level > lv.SrsLogLevelVerbose := by omega
    simp [SrsConsoleLog.verbose, hv]

/-- C7 at a concrete input: `verbose` on the sample log, whose level is Info. -/
theorem console_below_threshold_is_silent_witness :
    (sampleLevels.SrsLogLevelVerbose < sampleLevels.SrsLogLevelInfo ∧
      sampleLevels.SrsLogLevelInfo < sampleLevels.SrsLogLevelTrace ∧
      sampleLevels.SrsLogLevelTrace < sampleLevels.SrsLogLevelWarn ∧
      sampleLevels.SrsLogLevelWarn < sampleLevels.SrsLogLevelError) ∧
    sampleLog.level > EntryPoint.verbose.level sampleLevels ∧
    sampleLog.call sampleSys sampleLevels sampleOps sampleProc EntryPoint.verbose none
      "abcd1234" "hello" = some (sampleLog, sampleProc) :=
  ⟨by decide, by decide,
    (console_below_threshold_is_silent sampleSys sampleLevels sampleOps sampleLog sampleProc
      EntryPoint.verbose none "abcd1234" "hello" (by decide) (by decide)).1⟩

/-! ## bind: claims -/

set_option maxRecDepth 20000 in
/-- C8, as stated, fails: with a formatted reason of 256 characters the announced line
ends with an empty reason, not with the reason clamped to its first 255 characters. -/
theorem bind_long_reason_not_clamped :
    (sampleStore.bind sampleSys sampleOps 1 (List.replicate 256 NUL) "T"
        (fill 'r' 256)).map (fun out => out.trace_msg)
      = some (bind_announcement 4321 "A>T" "T" "") ∧
    bind_announcement 4321 "A>T" "T" "" ≠
      bind_announcement 4321 "A>T" "T" (clamped_reason (fill 'r' 256)) := by
  decide

/-- C8, amended: when the formatted reason has at least 256 characters, `bind` still
installs the current id of the calling thread augmented with `target` as its current id,
and the announced line carries an empty reason. -/
theorem bind_long_reason_dropped {Cid : Type} (sys : Sys) (ops : SrsContextIdOps Cid)
    (ctx : SrsThreadContext Cid) (self : srs_thread_t) (buffer : List Char) (target : Cid)
    (reason : String) (hbuf : buffer.length = 256) (hlong : 256 ≤ reason.length) :
    ∃ (cur : Cid) (out : BindOutcome Cid),
      ctx.get_id_value ops self = some cur ∧
      ctx.bind sys ops self buffer target reason = some out ∧
      out.ctx.get_id_value ops self = some (ops.bind cur target) ∧
      out.trace_msg = bind_announcement sys.getpid (ops.c_str (ops.bind cur target))
        (ops.c_str target) "" := by
  have hcur := get_id_value_eq ops ctx self
  have hcur' : CidRef.deref ops.dflt (ctx.get_id ops self).2 (ctx.get_id ops self).1
      = some ((ctx.cache self).getD ops.dflt) := hcur
  have hs := snprintf_ok buffer 0 256 reason (le_refl 0) (by decide) (by decide)
    (by rw [hbuf]; decide)
  have hnul : NUL ∈ List.take (Int.toNat 0) buffer ++ snprintf_stored (Int.toNat 256) reason ++
      List.drop (Int.toNat 0 + (snprintf_stored (Int.toNat 256) reason).length) buffer := by
    apply List.mem_append_left
    apply List.mem_append_right
    exact snprintf_stored_has_nul _ _ (by decide)
  have hsize : (snprintf_return reason < 0 ∨ to_size_t (snprintf_return reason) ≥ 256) := by
    unfold snprintf_return
    by_cases hfit : (reason.length : Int) ≤ INT_MAX
    · rw [if_pos hfit]
      right
      rw [to_size_t_of_int (by omega) hfit]
      omega
    · rw [if_neg hfit]
      left
      decide
  refine ⟨(ctx.cache self).getD ops.dflt, ?_⟩
  unfold SrsThreadContext.bind
  simp only [hcur', hs, c_string, if_pos hnul, if_pos hsize]
  refine ⟨_, hcur, rfl, ?_, ?_⟩
  · rw [get_id_value_eq, set_id_cache]
    simp
  · simp [format, vformat, conv_s, bind_announcement, String.append_assoc]
    rfl

/-- C8, amended, at a concrete input: thread 1 of the sample store, a reason of 256
characters. -/
theorem bind_long_reason_dropped_witness :
    ((List.replicate 256 NUL).length = 256 ∧ 256 ≤ (fill 'r' 256).length) ∧
    ∃ (cur : String) (out : BindOutcome String),
      sampleStore.get_id_value sampleOps 1 = some cur ∧
      sampleStore.bind sampleSys sampleOps 1 (List.replicate 256 NUL) "T" (fill 'r' 256)
        = some out ∧
      out.ctx.get_id_value sampleOps 1 = some (sampleOps.bind cur "T") ∧
      out.trace_msg = bind_announcement sampleSys.getpid
        (sampleOps.c_str (sampleOps.bind cur "T")) (sampleOps.c_str "T") "" :=
  ⟨⟨List.length_replicate 256 NUL, by simp only [fill, String.length, List.length_replicate]; decide⟩,
    bind_long_reason_dropped sampleSys sampleOps sampleStore 1 (List.replicate 256 NUL) "T"
      (fill 'r' 256) (List.length_replicate 256 NUL)
      (by simp only [fill, String.length, List.length_replicate]; decide)⟩

/-! ## SrsConsoleLog::error: claims -/

/-- C10: on the sample log (header of 53 characters, `errno` 11) a body of 8192 characters
leaves the running offset `size` at 8245 after the body is formatted, above
`SRS_BASIC_LOG_SIZE`; the remaining capacity `SRS_BASIC_LOG_SIZE - size` is negative, and
the `snprintf` of the errno description then stores outside the buffer. -/
theorem error_offset_exceeds_buffer :
    (sampleLog.error_formatted sampleSys sampleOps sampleProc none "abcd1234"
        (fill 'a' 8192)).map Prod.snd = some (some 8245) ∧
    (8245 : Int) > SRS_BASIC_LOG_SIZE ∧ SRS_BASIC_LOG_SIZE - 8245 < 0 ∧
    sampleLog.error sampleSys sampleLevels sampleOps sampleProc none "abcd1234"
        (fill 'a' 8192) = none := by
  have hbuf : (sampleLog.buffer.length : Int) = SRS_BASIC_LOG_SIZE := by
    simp only [sampleLog, SrsConsoleLog.ctor, List.length_map, List.length_range]
    decide
  have hL : (srs_log_header_text sampleSys sampleOps sampleProc.errno
      sampleTv sampleTm true none "abcd1234" "Error").length = 53 := by decide
  have hmsg : snprintf_return (fill 'a' 8192) = 8192 := by
    simp only [snprintf_return, fill, String.length, List.length_replicate]
    decide
  obtain ⟨log', hf, hl⟩ := error_formatted_size sampleSys sampleOps sampleLog sampleProc none
    "abcd1234" (fill 'a' 8192) _ _ rfl rfl hbuf (by rw [hL]; decide)
  rw [hL, hmsg] at hf
  have hsum : ((53 : Nat) : Int) + 8192 = 8245 := by decide
  rw [hsum] at hf
  refine ⟨by rw [hf]; rfl, by decide, by decide, ?_⟩
  have hout := snprintf_outside log'.buffer 8245 (SRS_BASIC_LOG_SIZE - 8245)
    (format "(%s)" [Arg.str (sampleSys.strerror sampleProc.errno)])
    (by rw [hl]; decide)
  unfold SrsConsoleLog.error
  rw [if_neg (by decide)]
  simp only [hf, hout]
  rfl

end Srs
